import Mathlib

/-!
Shallow embedding of `src/questdb_connect/__init__.py` (questdb-connect).

The module has three pieces of behaviour that the claims are about:

1. the query rewriter `remove_public_schema`, built on the compiled regex
   `public_schema_filter = re.compile(r"(')?(public(?(1)\1|)\.)", re.IGNORECASE | re.MULTILINE)`
   applied with `re.sub(pattern, "", query)` behind the guard
   `if query and isinstance(query, str) and "public" in query`;
2. the `connect(**kwargs)` wrapper, which resolves five options with the
   `kwargs.get(k) or default` pattern and hands exactly those (plus the custom
   `cursor_factory`) to `psycopg2.connect`;
3. `__initialize_list(conn, sql_stmt, target_list, default_target_list)`, the
   capability-list population routine guarded by list emptiness, with a
   `psycopg2.DatabaseError` fallback to a compiled-in default list.

Strings are modelled as `List Char`; Python truthiness of a string is
non-emptiness.  `re.IGNORECASE` is modelled with ASCII case folding
(`Char.toLower`), which agrees with Python on every character appearing in the
pattern and in the concrete inputs considered here.  `MULTILINE` is irrelevant:
the pattern contains no anchors.
-/

/-- The six pattern characters of the word `public`, lowercase. -/
def publicChars : List Char := ['p', 'u', 'b', 'l', 'i', 'c']

/-- The single-quote character `'` (ASCII 39), the optional qualifier quote of
the regex. -/
def squote : Char := Char.ofNat 39

/-- Case-insensitive literal match: if `l` starts with the pattern characters
`p` (compared via ASCII lowercase, as `re.IGNORECASE` does on this pattern),
return the remainder of `l` after them. -/
def stripCI : List Char → List Char → Option (List Char)
  | [], l => some l
  | _ :: _, [] => none
  | a :: ps, c :: cs => if c.toLower = a then stripCI ps cs else none

/-- The trailing `\.` of the unquoted alternative: consume a literal dot. -/
def dotAnchor : List Char → Option (List Char)
  | c :: r => if c = '.' then some r else none
  | [] => none

/-- The trailing `\1\.` of the quoted alternative: consume the closing quote
and then a literal dot. -/
def quoteDotAnchor : List Char → Option (List Char)
  | c1 :: c2 :: r => if c1 = squote ∧ c2 = '.' then some r else none
  | _ => none

/-- Match of `'public'\.` at the head of `l` (the branch of
`(')?(public(?(1)\1|)\.)` in which group 1 participates): a quote, the word
`public` case-insensitively, the backreferenced quote, a dot.  Returns the
text after the match. -/
def matchQuoted (l : List Char) : Option (List Char) :=
  match l with
  | c :: rest => if c = squote then (stripCI publicChars rest).bind quoteDotAnchor else none
  | [] => none

/-- Match of `public\.` at the head of `l` (the branch in which the optional
group 1 is skipped).  Returns the text after the match. -/
def matchUnquoted (l : List Char) : Option (List Char) :=
  (stripCI publicChars l).bind dotAnchor

/-- Match of the whole pattern `(')?(public(?(1)\1|)\.)` at the head of `l`.
The optional group `(')?` is greedy, so the engine first tries the quoted
branch and backtracks to the unquoted one. -/
def subMatch (l : List Char) : Option (List Char) :=
  match matchQuoted l with
  | some r => some r
  | none => matchUnquoted l

/-- `re.sub(public_schema_filter, "", ·)` with explicit fuel: scan left to
right; at each position emit the leftmost non-overlapping match as nothing and
resume after it, otherwise keep the character.  Every step consumes at least
one input character, so fuel `l.length` always suffices (see `subAllF_eq`). -/
def subAllF : Nat → List Char → List Char
  | 0, l => l
  | _ + 1, [] => []
  | fuel + 1, c :: cs =>
    match subMatch (c :: cs) with
    | some rest => subAllF fuel rest
    | none => c :: subAllF fuel cs

/-- `re.sub(public_schema_filter, "", l)`. -/
def subAll (l : List Char) : List Char := subAllF l.length l

/-- Whether `pat` is a prefix of `l`, by exact character comparison. -/
def startsWithChars : List Char → List Char → Bool
  | [], _ => true
  | _ :: _, [] => false
  | a :: ps, c :: cs => (c = a : Bool) && startsWithChars ps cs

/-- Python's case-sensitive `"public" in query` fast-path guard: the lowercase
word `public` occurs as a contiguous substring. -/
def containsPublic : List Char → Bool
  | [] => false
  | c :: cs => startsWithChars publicChars (c :: cs) || containsPublic cs

/-- Python truthiness of a string: non-empty. -/
def pyTruthyStr (s : String) : Bool := !s.toList.isEmpty

/-- `remove_public_schema` restricted to string inputs:
`if query and "public" in query: return re.sub(public_schema_filter, "", query)`,
otherwise the input itself. -/
def removePublicSchemaStr (s : String) : String :=
  if pyTruthyStr s && containsPublic s.toList then ⟨subAll s.toList⟩ else s

/-- A Python value passed to the rewriter: `None`, a `str`, or any other
object (carrying its truth value; either way `isinstance(query, str)` fails). -/
inductive PyQuery where
  | pyNone
  | pyStr (s : String)
  | pyObj (truthy : Bool)
deriving DecidableEq

/-- `remove_public_schema(query)`: non-strings fall out of the guard
`query and isinstance(query, str) and "public" in query` and are returned
unchanged; strings go through the guarded substitution. -/
def remove_public_schema : PyQuery → PyQuery
  | .pyStr s => .pyStr (removePublicSchemaStr s)
  | q => q

/-- Whether the pattern matches at some position of `l` (i.e. whether
`re.sub` rewrites anything). -/
def hasSchemaMatch : List Char → Bool
  | [] => false
  | c :: cs => (subMatch (c :: cs)).isSome || hasSchemaMatch cs

/-! ## `connect(**kwargs)`: option resolution -/

/-- A Python value supplied as a keyword option to `connect` (or produced by
resolving one): `None`, a string, an integer, the module's `cursor_factory`
function, or any other object (an opaque identifier). -/
inductive PyVal where
  | vNone
  | vStr (s : String)
  | vInt (n : Int)
  | vCursorFactory
  | vObj (id : Nat)
deriving DecidableEq

/-- Python truthiness of the modelled values: `None` is falsy, a string is
truthy iff non-empty, an integer iff non-zero, functions and plain objects are
truthy. -/
def PyVal.truthy : PyVal → Bool
  | .vNone => false
  | .vStr s => !s.toList.isEmpty
  | .vInt n => n != 0
  | .vCursorFactory => true
  | .vObj _ => true

/-- `kwargs.get(key)`: the bound value when the key is present, `None`
otherwise. -/
def pyGet (kwargs : List (String × PyVal)) (key : String) : PyVal :=
  (kwargs.lookup key).getD .vNone

/-- Python's `a or b`: `a` if it is truthy, else `b`. -/
def pyOr (a b : PyVal) : PyVal := if a.truthy then a else b

/-- The keyword arguments `connect(**kwargs)` hands to `psycopg2.connect`, in
source order: the custom `cursor_factory` and the five options resolved with
the `kwargs.get(k) or default` pattern.  No other entry of `kwargs` appears. -/
def connect_pg_args (kwargs : List (String × PyVal)) : List (String × PyVal) :=
  [("cursor_factory", .vCursorFactory),
   ("host", pyOr (pyGet kwargs "host") (.vStr "127.0.0.1")),
   ("port", pyOr (pyGet kwargs "port") (.vInt 8812)),
   ("user", pyOr (pyGet kwargs "username") (.vStr "admin")),
   ("password", pyOr (pyGet kwargs "password") (.vStr "quest")),
   ("database", pyOr (pyGet kwargs "database") (.vStr "main"))]

/-! ## `__initialize_list`: capability-list population -/

/-- Outcome of running the introspection query on the server: a successful
`execute`/`fetchall` returning the rows' single string values in server
order, a `psycopg2.DatabaseError`, or any other exception.  The two failures
arise in `execute`/`fetchall`, before any value has been appended to the
target list. -/
inductive DBResult where
  | ok (rows : List String)
  | dbErr
  | otherErr
deriving DecidableEq

/-- Outcome of `__initialize_list`: a normal return with the resulting list
contents, or an uncaught exception propagating with the list in the given
state. -/
inductive InitOutcome where
  | done (lst : List String)
  | raised (lst : List String)
deriving DecidableEq

/-- `__initialize_list(conn, sql_stmt, target_list, default_target_list)`:
skip everything unless `target_list` is empty; on success append every row's
single value in order; on `psycopg2.DatabaseError` extend with the default
list; any other exception escapes uncaught. -/
def initialize_list (result : DBResult) (target_list default_target_list : List String) :
    InitOutcome :=
  if target_list.isEmpty then
    match result with
    | .ok rows => .done (target_list ++ rows)
    | .dbErr => .done (target_list ++ default_target_list)
    | .otherErr => .raised target_list
  else .done target_list
def __default_func_names : List String :=
  ["abs", "acos", "all_tables", "and", "asin", "atan", "atan2", "avg", "base64", "between",
  "build", "case", "cast", "ceil", "ceiling", "coalesce", "concat", "cos", "cot", "count",
  "count_distinct", "current_database", "current_schema", "current_schemas", "current_user",
  "date_trunc", "dateadd", "datediff", "day", "day_of_week", "day_of_week_sunday_first",
  "days_in_month", "degrees", "dump_memory_usage", "dump_thread_stacks", "extract", "first",
  "floor", "flush_query_cache", "format_type", "haversine_dist_deg", "hour", "ilike",
  "information_schema._pg_expandarray", "isOrdered", "is_leap_year", "ksum", "last", "left",
  "length", "like", "list", "log", "long_sequence", "lower", "lpad", "ltrim", "make_geohash",
  "max", "memory_metrics", "micros", "millis", "min", "minute", "month", "not", "now", "nsum",
  "nullif", "pg_advisory_unlock_all", "pg_attrdef", "pg_attribute", "pg_catalog.age",
  "pg_catalog.current_database", "pg_catalog.current_schema", "pg_catalog.current_schemas",
  "pg_catalog.pg_attrdef", "pg_catalog.pg_attribute", "pg_catalog.pg_class",
  "pg_catalog.pg_database", "pg_catalog.pg_description", "pg_catalog.pg_get_expr",
  "pg_catalog.pg_get_keywords", "pg_catalog.pg_get_partkeydef", "pg_catalog.pg_get_userbyid",
  "pg_catalog.pg_index", "pg_catalog.pg_inherits", "pg_catalog.pg_is_in_recovery",
  "pg_catalog.pg_locks", "pg_catalog.pg_namespace", "pg_catalog.pg_roles",
  "pg_catalog.pg_shdescription", "pg_catalog.pg_table_is_visible", "pg_catalog.pg_type",
  "pg_catalog.txid_current", "pg_catalog.version", "pg_class", "pg_database", "pg_description",
  "pg_get_expr", "pg_get_keywords", "pg_get_partkeydef", "pg_index", "pg_inherits",
  "pg_is_in_recovery", "pg_locks", "pg_namespace", "pg_postmaster_start_time", "pg_proc",
  "pg_range", "pg_roles", "pg_type", "position", "power", "radians", "reader_pool",
  "regexp_replace", "replace", "right", "rnd_bin", "rnd_boolean", "rnd_byte", "rnd_char",
  "rnd_date", "rnd_double", "rnd_float", "rnd_geohash", "rnd_int", "rnd_log", "rnd_long",
  "rnd_long256", "rnd_short", "rnd_str", "rnd_symbol", "rnd_timestamp", "rnd_uuid4", "round",
  "round_down", "round_half_even", "round_up", "row_number", "rpad", "rtrim", "second",
  "session_user", "simulate_crash", "sin", "size_pretty", "split_part", "sqrt", "starts_with",
  "stddev_samp", "string_agg", "strpos", "substring", "sum", "switch", "sysdate", "systimestamp",
  "table_columns", "table_partitions", "table_writer_metrics", "tables", "tan", "timestamp_ceil",
  "timestamp_floor", "timestamp_sequence", "timestamp_shuffle", "to_char", "to_date",
  "to_long128", "to_lowercase", "to_pg_date", "to_str", "to_timestamp", "to_timezone",
  "to_uppercase", "to_utc", "touch", "trim", "txid_current", "typeOf", "upper", "version",
  "wal_tables", "week_of_year", "year"]

def __default_keywords : List String :=
  ["add", "all", "alter", "and", "as", "asc", "asof", "backup", "between", "by", "cache",
  "capacity", "case", "cast", "column", "columns", "copy", "create", "cross", "database",
  "default", "delete", "desc", "distinct", "drop", "else", "end", "except", "exists", "fill",
  "foreign", "from", "grant", "group", "header", "if", "in", "index", "inner", "insert",
  "intersect", "into", "isolation", "join", "key", "latest", "limit", "lock", "lt", "nan",
  "natural", "nocache", "none", "not", "null", "on", "only", "or", "order", "outer", "over",
  "partition", "primary", "references", "rename", "repair", "right", "sample", "select", "show",
  "splice", "system", "table", "tables", "then", "to", "transaction", "truncate", "type", "union",
  "unlock", "update", "values", "when", "where", "with", "writer"]

/-- The process-wide capability lists `__func_names` and `__keywords`. -/
structure CapState where
  func_names : List String
  keywords : List String
deriving DecidableEq

/-- The capability-population part of `connect`: first
`__initialize_list(conn, "SELECT name FROM functions()", __func_names, __default_func_names)`,
then the same for keywords; an exception from the first call prevents the
second and propagates (`Except.error` is the state left behind by an uncaught
exception, `Except.ok` the state when `connect` returns normally). -/
def connect_init (fr kr : DBResult) (st : CapState) : Except CapState CapState :=
  match initialize_list fr st.func_names __default_func_names with
  | .raised l => .error ⟨l, st.keywords⟩
  | .done l =>
    match initialize_list kr st.keywords __default_keywords with
    | .raised k => .error ⟨l, k⟩
    | .done k => .ok ⟨l, k⟩

/-! ## Supporting lemmas -/

theorem stripCI_length : ∀ (p l r : List Char), stripCI p l = some r → r.length + p.length = l.length := by
  intro p
  induction p with
  | nil =>
    intro l r h
    simp only [stripCI, Option.some.injEq] at h
    subst h
    simp
  | cons a ps ih =>
    intro l r h
    cases l with
    | nil => simp [stripCI] at h
    | cons c cs =>
      simp only [stripCI] at h
      by_cases hc : c.toLower = a
      · rw [if_pos hc] at h
        have := ih cs r h
        simp only [List.length_cons]
        omega
      · rw [if_neg hc] at h
        cases h

theorem dotAnchor_length : ∀ (l r : List Char), dotAnchor l = some r → r.length + 1 = l.length := by
  intro l r h
  cases l with
  | nil => cases h
  | cons c cs =>
    simp only [dotAnchor] at h
    by_cases hc : c = '.'
    · rw [if_pos hc] at h
      cases h
      simp
    · rw [if_neg hc] at h
      cases h

theorem quoteDotAnchor_length : ∀ (l r : List Char), quoteDotAnchor l = some r → r.length + 2 = l.length := by
  intro l r h
  match l with
  | [] => cases h
  | [c] => cases h
  | c1 :: c2 :: cs =>
    simp only [quoteDotAnchor] at h
    by_cases hc : c1 = squote ∧ c2 = '.'
    · rw [if_pos hc] at h
      cases h
      simp
    · rw [if_neg hc] at h
      cases h

theorem matchUnquoted_length (l r : List Char) (h : matchUnquoted l = some r) :
    r.length + 7 = l.length := by
  unfold matchUnquoted at h
  rw [Option.bind_eq_some] at h
  obtain ⟨m, hm, hd⟩ := h
  have h1 := stripCI_length publicChars l m hm
  have h2 := dotAnchor_length m r hd
  simp [publicChars] at h1
  omega

theorem matchQuoted_length (l r : List Char) (h : matchQuoted l = some r) :
    r.length + 9 = l.length := by
  cases l with
  | nil => cases h
  | cons c cs =>
    simp only [matchQuoted] at h
    by_cases hc : c = squote
    · rw [if_pos hc, Option.bind_eq_some] at h
      obtain ⟨m, hm, hd⟩ := h
      have h1 := stripCI_length publicChars cs m hm
      have h2 := quoteDotAnchor_length m r hd
      simp [publicChars] at h1
      simp only [List.length_cons]
      omega
    · rw [if_neg hc] at h
      cases h

theorem subMatch_length (l r : List Char) (h : subMatch l = some r) : r.length < l.length := by
  unfold subMatch at h
  cases hq : matchQuoted l with
  | some m =>
    rw [hq] at h
    cases h
    have := matchQuoted_length l r hq
    omega
  | none =>
    rw [hq] at h
    have := matchUnquoted_length l r h
    omega

/-- Any fuel at least `l.length` computes the same substitution: the fuel in
`subAll` is immaterial. -/
theorem subAllF_eq : ∀ (f1 : Nat), ∀ (f2 : Nat) (l : List Char),
    l.length ≤ f1 → l.length ≤ f2 → subAllF f1 l = subAllF f2 l := by
  intro f1
  induction f1 with
  | zero =>
    intro f2 l h1 _
    have : l = [] := List.length_eq_zero.mp (Nat.le_zero.mp h1)
    subst this
    cases f2 <;> rfl
  | succ n ih =>
    intro f2 l h1 h2
    cases l with
    | nil => cases f2 <;> rfl
    | cons c cs =>
      cases f2 with
      | zero => simp at h2
      | succ m =>
        simp only [subAllF]
        cases hm : subMatch (c :: cs) with
        | some rest =>
          have hlt := subMatch_length _ _ hm
          simp only [List.length_cons] at h1 h2 hlt
          exact ih m rest (by omega) (by omega)
        | none =>
          simp only [List.length_cons] at h1 h2
          rw [ih m cs (by omega) (by omega)]

/-- If the pattern matches nowhere, the substitution is the identity. -/
theorem subAllF_of_no_match : ∀ (fuel : Nat) (l : List Char),
    hasSchemaMatch l = false → subAllF fuel l = l := by
  intro fuel
  induction fuel with
  | zero => intro l _; cases l <;> rfl
  | succ n ih =>
    intro l h
    cases l with
    | nil => rfl
    | cons c cs =>
      simp only [hasSchemaMatch, Bool.or_eq_false_iff] at h
      have hm : subMatch (c :: cs) = none := by
        cases hx : subMatch (c :: cs) with
        | none => rfl
        | some r => rw [hx] at h; simp at h
      simp only [subAllF, hm]
      rw [ih cs h.2]

/-- A key absent from the association list's keys is not looked up. -/
theorem lookup_eq_none_of_not_mem_keys {α β : Type} [BEq α] [LawfulBEq α]
    (l : List (α × β)) (k : α) (h : k ∉ l.map Prod.fst) : l.lookup k = none := by
  induction l with
  | nil => rfl
  | cons p ps ih =>
    simp only [List.map_cons, List.mem_cons] at h
    push_neg at h
    simp only [List.lookup]
    have : (k == p.fst) = false := beq_eq_false_iff_ne.mpr h.1
    rw [this]
    exact ih h.2

/-- If the text does not contain the lowercase substring `public`, the guard
`"public" in query` fails and `remove_public_schema` returns the input. -/
theorem removePublicSchemaStr_of_not_contains (s : String)
    (h : containsPublic s.toList = false) : removePublicSchemaStr s = s := by
  unfold removePublicSchemaStr
  rw [h]
  simp

/-- `__initialize_list` is a no-op (beyond returning) on a non-empty target
list: the `if not target_list` guard skips the query entirely. -/
theorem initialize_list_of_ne_nil (cur : List String) (r : DBResult) (dflt : List String)
    (h : cur ≠ []) : initialize_list r cur dflt = InitOutcome.done cur := by
  cases cur with
  | nil => exact absurd rfl h
  | cons a as => rfl

/-! ## Claims -/

/-- C1 (counterexample): the guard `"public" in query` is case-sensitive, so
`remove_public_schema` returns `SELECT * FROM PUBLIC.Trades` unchanged instead
of the claimed `SELECT * FROM Trades`. -/
theorem C1_counterexample :
    removePublicSchemaStr "SELECT * FROM PUBLIC.Trades" = "SELECT * FROM PUBLIC.Trades" ∧
    ("SELECT * FROM PUBLIC.Trades" : String) ≠ "SELECT * FROM Trades" := by
  exact ⟨rfl, by decide⟩

/-- C1 (amended): the schema token is matched case-insensitively only when the
fast-path guard passes, i.e. when the text also contains the lowercase
substring `public`; `SELECT * FROM PUBLIC.Trades` alone is returned unchanged,
while in a text that also contains lowercase `public` the uppercase qualifier
is stripped with the identifier's case preserved. -/
theorem C1_case_guarded_rewrite :
    removePublicSchemaStr "SELECT * FROM PUBLIC.Trades" = "SELECT * FROM PUBLIC.Trades" ∧
    removePublicSchemaStr "select public.a from PUBLIC.Trades" = "select a from Trades" := by
  exact ⟨rfl, rfl⟩

/-- C2: the quoted and unquoted qualifier forms are stripped identically:
`SELECT * FROM public.trades` and `SELECT * FROM 'public'.trades` both rewrite
to `SELECT * FROM trades`, the rest of the text unchanged. -/
theorem C2_quoted_unquoted_strip :
    removePublicSchemaStr "SELECT * FROM public.trades" = "SELECT * FROM trades" ∧
    removePublicSchemaStr "SELECT * FROM 'public'.trades" = "SELECT * FROM trades" := by
  exact ⟨rfl, rfl⟩

/-- C3 (counterexample): the pattern has no left word boundary, so `public.`
inside the longer identifier `republic.x` is removed:
`SELECT * FROM republic.x` rewrites to `SELECT * FROM rex`, not to itself. -/
theorem C3_counterexample :
    removePublicSchemaStr "SELECT * FROM republic.x" = "SELECT * FROM rex" ∧
    ("SELECT * FROM rex" : String) ≠ "SELECT * FROM republic.x" := by
  exact ⟨rfl, by decide⟩

/-- C3 (amended): a text is returned unchanged whenever the pattern matches
nowhere, i.e. whenever no occurrence of `public` (case-insensitively) is
followed by the dot anchor (with the quote pair for the quoted form); this
covers `publication` and `public` inside a string literal not followed by a
dot.  The boundary is right-anchored only: an identifier with a prefix before
`public.`, such as `republic.x`, is rewritten (`SELECT * FROM republic.x` →
`SELECT * FROM rex`). -/
theorem C3_right_anchor_only :
    (∀ s : String, hasSchemaMatch s.toList = false → removePublicSchemaStr s = s) ∧
    removePublicSchemaStr "SELECT * FROM publication" = "SELECT * FROM publication" ∧
    removePublicSchemaStr "SELECT 'has public inside' FROM t" = "SELECT 'has public inside' FROM t" ∧
    removePublicSchemaStr "SELECT * FROM republic.x" = "SELECT * FROM rex" := by
  refine ⟨?_, rfl, rfl, rfl⟩
  intro s h
  unfold removePublicSchemaStr
  split
  · show String.mk (subAll s.toList) = s
    rw [subAll, subAllF_of_no_match _ _ h]
    rfl
  · rfl

/-- C3 witness: the general unchanged-text part of `C3_right_anchor_only` at a
concrete match-free input. -/
theorem C3_witness :
    removePublicSchemaStr "SELECT name FROM tables()" = "SELECT name FROM tables()" :=
  C3_right_anchor_only.1 "SELECT name FROM tables()" (by decide)

/-- C4 (counterexample): the rewrite is not idempotent: removing the match
inside `pubpublic.lic.x` splices the surrounding text into the new qualifier
`public.x`, which a second application removes, so applying the rewriter twice
differs from applying it once. -/
theorem C4_counterexample :
    removePublicSchemaStr "pubpublic.lic.x" = "public.x" ∧
    removePublicSchemaStr (removePublicSchemaStr "pubpublic.lic.x") = "x" ∧
    removePublicSchemaStr (removePublicSchemaStr "pubpublic.lic.x") ≠
      removePublicSchemaStr "pubpublic.lic.x" := by
  exact ⟨rfl, rfl, by decide⟩

/-- C4 (amended): the rewrite is idempotent on every input whose rewritten
form no longer contains the lowercase substring `public` (then the second
application is stopped by the fast-path guard); in general a removal can
splice surrounding text into a fresh match, as in `C4_counterexample`. -/
theorem C4_idempotent_when_guard_clears (s : String)
    (h : containsPublic (removePublicSchemaStr s).toList = false) :
    removePublicSchemaStr (removePublicSchemaStr s) = removePublicSchemaStr s :=
  removePublicSchemaStr_of_not_contains (removePublicSchemaStr s) h

/-- C4 witness: `C4_idempotent_when_guard_clears` at a concrete input whose
rewritten form is free of `public`. -/
theorem C4_witness :
    removePublicSchemaStr (removePublicSchemaStr "SELECT * FROM public.trades") =
      removePublicSchemaStr "SELECT * FROM public.trades" :=
  C4_idempotent_when_guard_clears "SELECT * FROM public.trades" (by decide)

/-- C5 (counterexample): an option outside the five recognised ones is not
passed through: `connect` with `sslmode` supplied hands `psycopg2.connect`
exactly the same arguments as `connect` with no options, and no `sslmode`
entry reaches the underlying library. -/
theorem C5_counterexample :
    (connect_pg_args [("sslmode", PyVal.vStr "require")]).lookup "sslmode" = none ∧
    connect_pg_args [("sslmode", PyVal.vStr "require")] = connect_pg_args [] := by
  exact ⟨rfl, rfl⟩

/-- C5 (amended): options other than the five recognised ones are discarded,
not forwarded: the underlying connect call receives exactly `cursor_factory`
and the five resolved options, so no other option name appears among its
arguments. -/
theorem C5_extra_options_discarded (kwargs : List (String × PyVal)) (k : String)
    (h : k ∉ ["cursor_factory", "host", "port", "user", "password", "database"]) :
    (connect_pg_args kwargs).lookup k = none ∧
    (connect_pg_args kwargs).map Prod.fst =
      ["cursor_factory", "host", "port", "user", "password", "database"] := by
  refine ⟨?_, rfl⟩
  exact lookup_eq_none_of_not_mem_keys _ k h

/-- C5 witness: `C5_extra_options_discarded` at a concrete extra option. -/
theorem C5_witness :
    (connect_pg_args [("connect_timeout", PyVal.vInt 5)]).lookup "connect_timeout" = none :=
  (C5_extra_options_discarded [("connect_timeout", PyVal.vInt 5)] "connect_timeout"
    (by decide)).1

/-- C6: population of an empty list that hits a database-level error yields
exactly the compiled-in default list, and a non-database error propagates
uncaught (leaving the list empty). -/
theorem C6_db_error_fallback :
    (∀ dflt : List String, initialize_list DBResult.dbErr [] dflt = InitOutcome.done dflt) ∧
    (∀ dflt : List String, initialize_list DBResult.otherErr [] dflt = InitOutcome.raised []) := by
  exact ⟨fun dflt => rfl, fun dflt => rfl⟩

/-- C6 witness: `C6_db_error_fallback` at the module's actual compiled-in
default function list. -/
theorem C6_witness :
    initialize_list DBResult.dbErr [] __default_func_names =
      InitOutcome.done __default_func_names :=
  C6_db_error_fallback.1 __default_func_names

/-- C7: population is guarded by emptiness: an empty list successfully
populated holds exactly the returned row values in server order (no
deduplication, no sorting); a non-empty list is left unchanged whatever the
server would answer (no re-query); and a connect against a state with both
lists non-empty returns the state unchanged. -/
theorem C7_population_guarded :
    (∀ rows dflt : List String,
      initialize_list (DBResult.ok rows) [] dflt = InitOutcome.done rows) ∧
    (∀ (cur : List String) (r : DBResult) (dflt : List String), cur ≠ [] →
      initialize_list r cur dflt = InitOutcome.done cur) ∧
    (∀ (fr kr : DBResult) (st : CapState), st.func_names ≠ [] → st.keywords ≠ [] →
      connect_init fr kr st = Except.ok st) := by
  refine ⟨fun rows dflt => rfl, fun cur r dflt h => initialize_list_of_ne_nil cur r dflt h, ?_⟩
  intro fr kr st hf hk
  obtain ⟨f, k⟩ := st
  have h1 := initialize_list_of_ne_nil f fr __default_func_names hf
  have h2 := initialize_list_of_ne_nil k kr __default_keywords hk
  simp [connect_init, h1, h2]

/-- C7 witness: rows `["now", "sum"]` populate an empty list in order; an
already-populated list is untouched by a second population; a second connect
returns the capability state unchanged. -/
theorem C7_witness :
    initialize_list (DBResult.ok ["now", "sum"]) [] __default_func_names =
      InitOutcome.done ["now", "sum"] ∧
    initialize_list (DBResult.ok ["avg"]) ["now", "sum"] __default_func_names =
      InitOutcome.done ["now", "sum"] ∧
    connect_init (DBResult.ok ["avg"]) DBResult.dbErr ⟨["now", "sum"], ["select"]⟩ =
      Except.ok ⟨["now", "sum"], ["select"]⟩ :=
  ⟨C7_population_guarded.1 ["now", "sum"] __default_func_names,
   C7_population_guarded.2.1 ["now", "sum"] (DBResult.ok ["avg"]) __default_func_names
     (by decide),
   C7_population_guarded.2.2 (DBResult.ok ["avg"]) DBResult.dbErr ⟨["now", "sum"], ["select"]⟩
     (by decide) (by decide)⟩

/-- C8: a SQL text without the lowercase substring `public` is returned
unchanged (the fast-path guard). -/
theorem C8_no_public_identity (s : String) (h : containsPublic s.toList = false) :
    removePublicSchemaStr s = s :=
  removePublicSchemaStr_of_not_contains s h

/-- C8 witness: `C8_no_public_identity` at `SELECT * FROM trades`. -/
theorem C8_witness :
    removePublicSchemaStr "SELECT * FROM trades" = "SELECT * FROM trades" :=
  C8_no_public_identity "SELECT * FROM trades" (by decide)

/-- C9: the rewrite step is total and never raises: every non-string input
(`None` or any other object, such as a pre-compiled query) is returned
unchanged, and the empty string is returned unchanged. -/
theorem C9_non_string_passthrough :
    (∀ q : PyQuery, (∀ s : String, q ≠ PyQuery.pyStr s) → remove_public_schema q = q) ∧
    remove_public_schema (PyQuery.pyStr "") = PyQuery.pyStr "" := by
  constructor
  · intro q h
    cases q with
    | pyNone => rfl
    | pyObj t => rfl
    | pyStr s => exact absurd rfl (h s)
  · rfl

/-- C9 witness: `C9_non_string_passthrough` at `None`. -/
theorem C9_witness : remove_public_schema PyQuery.pyNone = PyQuery.pyNone :=
  C9_non_string_passthrough.1 PyQuery.pyNone (fun _ h => PyQuery.noConfusion h)

/-- C10: each of the five options is read with the `value or default` pattern,
so whenever the supplied value is falsy (absent, `None`, `""`, or `0`) the
built-in default is substituted: the underlying connect call then receives
host `127.0.0.1`, port `8812`, user `admin`, password `quest`, database
`main`. -/
theorem C10_falsy_values_defaulted (kwargs : List (String × PyVal))
    (hh : (pyGet kwargs "host").truthy = false)
    (hp : (pyGet kwargs "port").truthy = false)
    (hu : (pyGet kwargs "username").truthy = false)
    (hw : (pyGet kwargs "password").truthy = false)
    (hd : (pyGet kwargs "database").truthy = false) :
    connect_pg_args kwargs =
      [("cursor_factory", PyVal.vCursorFactory),
       ("host", PyVal.vStr "127.0.0.1"),
       ("port", PyVal.vInt 8812),
       ("user", PyVal.vStr "admin"),
       ("password", PyVal.vStr "quest"),
       ("database", PyVal.vStr "main")] := by
  simp [connect_pg_args, pyOr, hh, hp, hu, hw, hd]

/-- C10 witness: `C10_falsy_values_defaulted` with `host` and `database`
explicitly `None`, `port` zero, and `username` and `password` empty strings:
all five defaults are substituted. -/
theorem C10_witness :
    connect_pg_args
        [("host", PyVal.vNone), ("port", PyVal.vInt 0), ("username", PyVal.vStr ""),
         ("password", PyVal.vStr ""), ("database", PyVal.vNone)] =
      [("cursor_factory", PyVal.vCursorFactory),
       ("host", PyVal.vStr "127.0.0.1"),
       ("port", PyVal.vInt 8812),
       ("user", PyVal.vStr "admin"),
       ("password", PyVal.vStr "quest"),
       ("database", PyVal.vStr "main")] :=
  C10_falsy_values_defaulted
    [("host", PyVal.vNone), ("port", PyVal.vInt 0), ("username", PyVal.vStr ""),
     ("password", PyVal.vStr ""), ("database", PyVal.vNone)]
    rfl rfl rfl rfl rfl
